import Mathlib

/-!
Shallow embedding of the discogs-wantlist-reissue checker
(`src/index.ts` and its configurable variant `src/unnamed/part_000`).

The embedding keeps the source's names where Lean allows it:
`checkReleaseForPost2015Versions`, `extractReleaseIds`, `escapeCsvField`,
the `RateLimiter` operations, and the version filter/map pipeline that
builds `post2015Releases`.  JavaScript truthiness on the duck-typed
fields (`year`, `released`, `title`, `master_id`, `Artist`, `Title`) is
modelled explicitly: a numeric field is truthy iff present and nonzero,
a string field is truthy iff present and nonempty.
-/

namespace Wantlist

/-- Year threshold from `config.ts` (`MIN_YEAR = 2015`); `index.ts`
hard-codes the same literal 2015. -/
def MIN_YEAR : Int := 2015

/-- `RETRY.MAX_RETRIES = 5` (`maxRetries` in `index.ts`). -/
def maxRetries : Nat := 5

/-- `RETRY.BASE_DELAY_MS = 60000` (`baseDelay` in `index.ts`). -/
def baseDelay : Nat := 60000

/-- One record of the remote `getMasterVersions` response
(`versions: [{id, title?, year?, released?}]`).  The `year` and
`released` fields are duck-typed in the source (`(version as any).year`),
so they are optional here; `title` likewise. -/
structure MasterVersion where
  id : Nat
  title : Option String
  year : Option Int
  released : Option String
deriving DecidableEq, Repr

/-- JavaScript truthiness of an optional numeric field:
`year && typeof year === "number"` holds iff the field is present and
nonzero. -/
def numTruthy : Option Int → Bool
  | some y => y != 0
  | none => false

/-- JavaScript truthiness of an optional string field:
`released && typeof released === "string"` holds iff the field is
present and nonempty. -/
def strTruthy : Option String → Bool
  | some s => s != ""
  | none => false

/-- The numeric value the source reads after the truthiness check
(on a falsy field the value is never used; 0 here). -/
def yearValOf : Option Int → Int
  | some y => y
  | none => 0

/-- The string value the source reads after the truthiness check. -/
def strValOf : Option String → String
  | some s => s
  | none => ""

/-- Value of four digit characters, most significant first. -/
def fourDigitValue : List Char → Option Nat
  | a :: b :: c :: d :: _ =>
    if a.isDigit && b.isDigit && c.isDigit && d.isDigit then
      some ((((a.toNat - 48) * 10 + (b.toNat - 48)) * 10 + (c.toNat - 48)) * 10
        + (d.toNat - 48))
    else none
  | _ => none

/-- `released.match(/(\d{4})/)` followed by `parseInt(yearMatch[1], 10)`:
the leftmost run of four consecutive digits, as a number; `none` when the
regex does not match. -/
def findYearMatch : List Char → Option Nat
  | [] => none
  | c :: cs =>
    match fourDigitValue (c :: cs) with
    | some n => some n
    | none => findYearMatch cs

/-- The `.filter` predicate of the version pipeline in
`checkReleaseForPost2015Versions` (`index.ts` lines 202-221): a truthy
numeric `year` decides directly; otherwise a truthy `released` string is
searched for a 4-digit year; otherwise the version does not qualify. -/
def versionMatches (v : MasterVersion) : Bool :=
  if numTruthy v.year then
    decide (MIN_YEAR ≤ yearValOf v.year)
  else if strTruthy v.released then
    match findYearMatch (strValOf v.released).data with
    | some extractedYear => decide (MIN_YEAR ≤ (extractedYear : Int))
    | none => false
  else false

/-- The `releaseYear` computation of the `.map` step (`index.ts` lines
222-234): same resolution order as the filter, defaulting to 0. -/
def versionReleaseYear (v : MasterVersion) : Int :=
  if numTruthy v.year then
    yearValOf v.year
  else if strTruthy v.released then
    match findYearMatch (strValOf v.released).data with
    | some extractedYear => (extractedYear : Int)
    | none => 0
  else 0

/-- Output element of the `.map` step: `{id, title, year, url}`. -/
structure VersionCandidate where
  id : Nat
  title : String
  year : Int
  url : String
deriving DecidableEq, Repr

/-- The `.map` body (`index.ts` lines 236-241): title defaults to
"Unknown" on a falsy field, the url is the fixed base plus the id. -/
def toCandidate (v : MasterVersion) : VersionCandidate :=
  { id := v.id
    title := if strTruthy v.title then strValOf v.title else "Unknown"
    year := versionReleaseYear v
    url := "https://www.discogs.com/release/" ++ toString v.id }

/-- The whole filter-then-map pipeline building `post2015Releases` from
the fetched `versions` list (`index.ts` lines 201-242). -/
def post2015Releases (versions : List MasterVersion) : List VersionCandidate :=
  (versions.filter versionMatches).map toCandidate

/-- Modelled from the spec: the year-resolution order the spec describes
for classification — (a) a truthy numeric year field; (b) else the first
4-digit substring of a truthy released string; (c) else no resolved year
(candidate excluded).  Stated separately from `versionMatches` so the
classifier can be compared against it. -/
def resolvedYearSpec (v : MasterVersion) : Option Int :=
  if numTruthy v.year then
    some (yearValOf v.year)
  else if strTruthy v.released then
    (findYearMatch (strValOf v.released).data).map fun n => (n : Int)
  else none

/-- The error object the source inspects in its catch blocks:
`error.statusCode === 429` distinguishes a rate-limit rejection. -/
structure DiscogsError where
  statusCode : Option Nat
  message : String
deriving DecidableEq, Repr

/-- The part of the `getRelease` response body the source reads:
`release.master_id`, duck-typed (absent or 0 is falsy). -/
structure ReleaseData where
  master_id : Option Nat
deriving DecidableEq, Repr

/-- Truthiness of `release.master_id` (`if (!release.master_id)`). -/
def masterTruthy : Option Nat → Bool
  | some m => m != 0
  | none => false

/-- The remote service plus network, abstracted per attempt number:
`getRelease` and `getMasterVersions` may answer differently on each
retry (`attempt` is the `retryCount` at which the call is issued).  The
versions response body is `masterVersionsResponse.data.versions`, which
may be absent (hence `Option`, defaulted by `|| []` in the source). -/
structure DiscogsEnv where
  getRelease : (attempt : Nat) → Except DiscogsError ReleaseData
  getMasterVersions : (masterId : Nat) → (attempt : Nat) →
    Except DiscogsError (Option (List MasterVersion))

/-- Observable per-target events of one lookup, in order: each remote
call issued and each backoff sleep (`await sleep(delay)`), plus the
log line of the error-containment path (`console.error` before the
non-matching result is returned). -/
inductive LookupEvent where
  | fetchRelease (attempt : Nat)
  | fetchVersions (masterId : Nat) (attempt : Nat)
  | backoff (attempt : Nat) (delayMs : Nat)
  | errorLogged
deriving DecidableEq, Repr

/-- The `ReleaseInfo` result record of `checkReleaseForPost2015Versions`. -/
structure ReleaseInfo where
  releaseId : Int
  artist : Option String
  title : Option String
  hasPost2015Release : Bool
  post2015Releases : List VersionCandidate
deriving DecidableEq, Repr

/-- The non-matching result shared by the no-master path, the
error-containment path, and the exhausted-retries path. -/
def unmatchedInfo (releaseId : Int) (artist title : Option String) : ReleaseInfo :=
  { releaseId := releaseId
    artist := artist
    title := title
    hasPost2015Release := false
    post2015Releases := [] }

/-- Body of `checkReleaseForPost2015Versions` (`index.ts` lines
123-271), with the recursion made structural on a fuel argument (the
wrapper below supplies `maxRetries + 1 - retryCount`, which the
source's `retryCount < maxRetries` guards keep positive, so the fuel-0
fallback is never reached from the wrapper).  Each catch block's
`error.statusCode === 429 && retryCount < maxRetries` test appears
exactly as in the source; when an inner catch rethrows, the outer catch
re-tests the same (now false) condition and returns the non-matching
result, which is written here as the direct else-branch.  The rate
limiter's pacing waits (`waitIfNeeded`) change no data and are omitted
from the trace. -/
def checkReleaseAux (env : DiscogsEnv) (releaseId : Int)
    (artist title : Option String) : Nat → Nat → ReleaseInfo × List LookupEvent
  | 0, _ => (unmatchedInfo releaseId artist title, [])
  | fuel + 1, retryCount =>
    match env.getRelease retryCount with
    | .error e =>
      if e.statusCode = some 429 ∧ retryCount < maxRetries then
        let rest := checkReleaseAux env releaseId artist title fuel (retryCount + 1)
        (rest.1, .fetchRelease retryCount ::
          .backoff retryCount (baseDelay * 2 ^ retryCount) :: rest.2)
      else
        (unmatchedInfo releaseId artist title,
          [.fetchRelease retryCount, .errorLogged])
    | .ok release =>
      if !masterTruthy release.master_id then
        (unmatchedInfo releaseId artist title, [.fetchRelease retryCount])
      else
        let masterId := release.master_id.getD 0
        match env.getMasterVersions masterId retryCount with
        | .error e =>
          if e.statusCode = some 429 ∧ retryCount < maxRetries then
            let rest := checkReleaseAux env releaseId artist title fuel (retryCount + 1)
            (rest.1, .fetchRelease retryCount :: .fetchVersions masterId retryCount ::
              .backoff retryCount (baseDelay * 2 ^ retryCount) :: rest.2)
          else
            (unmatchedInfo releaseId artist title,
              [.fetchRelease retryCount, .fetchVersions masterId retryCount,
                .errorLogged])
        | .ok versionsOpt =>
          let post := post2015Releases (versionsOpt.getD [])
          ({ releaseId := releaseId
             artist := artist
             title := title
             hasPost2015Release := decide (0 < post.length)
             post2015Releases := post },
            [.fetchRelease retryCount, .fetchVersions masterId retryCount])

/-- `checkReleaseForPost2015Versions` at a given starting `retryCount`
(the batch driver always starts it at 0). -/
def checkReleaseForPost2015Versions (env : DiscogsEnv) (releaseId : Int)
    (artist title : Option String) (retryCount : Nat) : ReleaseInfo × List LookupEvent :=
  checkReleaseAux env releaseId artist title (maxRetries + 1 - retryCount) retryCount

/-- Predicate picking the backoff sleeps out of a lookup trace. -/
def isBackoffEvent : LookupEvent → Bool
  | .backoff _ _ => true
  | _ => false

/-- Predicate picking the release fetches out of a lookup trace. -/
def isFetchReleaseEvent : LookupEvent → Bool
  | .fetchRelease _ => true
  | _ => false

/-- An environment whose every remote call is rejected with HTTP 429. -/
def env429 : DiscogsEnv :=
  { getRelease := fun _ => .error { statusCode := some 429, message := "Too Many Requests" }
    getMasterVersions := fun _ _ =>
      .error { statusCode := some 429, message := "Too Many Requests" } }

/-- An environment whose release fetch fails with a non-rate-limit error. -/
def env500 : DiscogsEnv :=
  { getRelease := fun _ => .error { statusCode := some 500, message := "server error" }
    getMasterVersions := fun _ _ => .ok (some []) }

/-- An environment where the release fetch succeeds (master 7) but the
versions fetch fails with a non-rate-limit network error. -/
def envVersionsDown : DiscogsEnv :=
  { getRelease := fun _ => .ok { master_id := some 7 }
    getMasterVersions := fun _ _ => .error { statusCode := none, message := "network" } }

/-- An environment where the fetched release has no master work. -/
def envNoMaster : DiscogsEnv :=
  { getRelease := fun _ => .ok { master_id := none }
    getMasterVersions := fun _ _ => .ok (some []) }

/-- An environment where the release fetch always succeeds (master 7)
and the versions fetch is rate-limited on attempt 0 only. -/
def envVersions429Once : DiscogsEnv :=
  { getRelease := fun _ => .ok { master_id := some 7 }
    getMasterVersions := fun _ attempt =>
      if attempt = 0 then .error { statusCode := some 429, message := "Too Many Requests" }
      else .ok (some []) }

/-- An environment delivering one version from 2016 for master 3. -/
def envOneHit : DiscogsEnv :=
  { getRelease := fun _ => .ok { master_id := some 3 }
    getMasterVersions := fun _ _ =>
      .ok (some [{ id := 9, title := none, year := some 2016, released := none }]) }

/-- `RATE_LIMIT.WINDOW_MS = 60000` (`windowMs` in the `RateLimiter`). -/
def windowMs : Int := 60000

namespace RateLimiter

/-- `RateLimiter.cleanup` (`index.ts` lines 42-47): drop every recorded
timestamp that is out of the sliding window at time `now`. -/
def cleanup (now : Int) (requestTimestamps : List Int) : List Int :=
  requestTimestamps.filter fun timestamp => decide (now - timestamp < windowMs)

/-- `RateLimiter.getRequestsInWindow` (`index.ts` lines 50-53). -/
def getRequestsInWindow (now : Int) (requestTimestamps : List Int) : Nat :=
  (cleanup now requestTimestamps).length

/-- `RateLimiter.getRemaining` (`index.ts` lines 56-58):
`Math.max(0, maxRequests - getRequestsInWindow())`. -/
def getRemaining (maxRequests now : Int) (requestTimestamps : List Int) : Int :=
  max 0 (maxRequests - getRequestsInWindow now requestTimestamps)

end RateLimiter

/-- `str.replace(/"/g, '""')`: every quote doubled. -/
def doubleQuotes : List Char → List Char
  | [] => []
  | c :: cs => if c = '"' then '"' :: '"' :: doubleQuotes cs else c :: doubleQuotes cs

/-- `escapeCsvField` (`index.ts` lines 300-307) on a string value: a
field containing a comma, quote, or newline is wrapped in quotes with
internal quotes doubled; otherwise it is returned unchanged. -/
def escapeCsvField (s : List Char) : List Char :=
  if s.contains ',' || s.contains '"' || s.contains '\n' then
    '"' :: (doubleQuotes s ++ ['"'])
  else s

/-- Collapse each doubled quote back to a single quote. -/
def collapseQuotes : List Char → List Char
  | [] => []
  | [c] => [c]
  | c1 :: c2 :: cs =>
    if c1 = '"' && c2 = '"' then '"' :: collapseQuotes cs
    else c1 :: collapseQuotes (c2 :: cs)

/-- Modelled from the spec: the CSV-field unescaper the round-trip
property talks about — strip the outer quotes, collapse doubled
internal quotes; anything not fully quoted is left as is.  The
repository carries no parser of its own output. -/
def unescapeCsvField (s : List Char) : List Char :=
  match s with
  | c :: rest =>
    if c = '"' ∧ rest ≠ [] ∧ rest.getLast? = some '"' then collapseQuotes rest.dropLast
    else s
  | [] => s

/-- The characters `parseInt` skips before the number: JavaScript
whitespace (the common subset). -/
def jsWhitespace (c : Char) : Bool :=
  c = ' ' || c = '\t' || c = '\n' || c = '\r' || c = '\x0b' || c = '\x0c'

/-- Value of a digit string, most significant first. -/
def digitsValue (ds : List Char) : Nat :=
  ds.foldl (fun acc c => acc * 10 + (c.toNat - 48)) 0

/-- `parseInt(s, 10)`: skip leading whitespace, read an optional sign,
then the longest prefix of decimal digits; `NaN` (here `none`) when no
digit follows; trailing characters are ignored. -/
def parseIntJS (s : List Char) : Option Int :=
  let t := s.dropWhile jsWhitespace
  match t with
  | '-' :: rest =>
    let ds := rest.takeWhile Char.isDigit
    if ds.isEmpty then none else some (-(digitsValue ds : Int))
  | '+' :: rest =>
    let ds := rest.takeWhile Char.isDigit
    if ds.isEmpty then none else some (digitsValue ds : Int)
  | _ =>
    let ds := t.takeWhile Char.isDigit
    if ds.isEmpty then none else some (digitsValue ds : Int)

/-- One parsed input record (the CSV parser runs with `columns: true`,
so a column missing from a short row is absent).  Only the columns the
extraction reads are listed with their source names. -/
structure CsvRow where
  Artist : Option String
  Title : Option String
  release_id : Option String
deriving DecidableEq, Repr

/-- One element of the `extractReleaseIds` output:
`{ id, artist, title }`. -/
structure ExtractedRelease where
  id : Int
  artist : String
  title : String
deriving DecidableEq, Repr

/-- `parseInt(row.release_id, 10)`; an absent column gives `NaN`. -/
def rowReleaseId (row : CsvRow) : Option Int :=
  match row.release_id with
  | some s => parseIntJS s.data
  | none => none

/-- `row.Artist || "Unknown"` (and likewise for `Title`). -/
def orUnknown (field : Option String) : String :=
  if strTruthy field then strValOf field else "Unknown"

/-- `extractReleaseIds` (`index.ts` lines 283-298): keep a row when
`parseInt(row.release_id, 10)` is a number greater than 0, defaulting
falsy `Artist`/`Title` to "Unknown"; other rows are skipped silently. -/
def extractReleaseIds : List CsvRow → List ExtractedRelease
  | [] => []
  | row :: rest =>
    match rowReleaseId row with
    | some releaseId =>
      if 0 < releaseId then
        { id := releaseId, artist := orUnknown row.Artist, title := orUnknown row.Title } ::
          extractReleaseIds rest
      else extractReleaseIds rest
    | none => extractReleaseIds rest

/-- Modelled from the spec: "the release_id value is a positive
integer" read literally — the string is a nonempty run of decimal
digits denoting a positive number. -/
def isPositiveIntegerString (s : String) : Bool :=
  !s.data.isEmpty && s.data.all Char.isDigit && decide (0 < digitsValue s.data)

/-- The per-row keep-or-skip decision of `extractReleaseIds`, packaged
for the `List.filterMap` characterization. -/
def extractRow (row : CsvRow) : Option ExtractedRelease :=
  match rowReleaseId row with
  | some releaseId =>
    if 0 < releaseId then
      some { id := releaseId, artist := orUnknown row.Artist, title := orUnknown row.Title }
    else none
  | none => none

/-- An input row whose release_id has a numeric prefix followed by
trailing garbage. -/
def rowMalformed : CsvRow :=
  { Artist := some "A", Title := some "T", release_id := some "12abc" }

theorem versionMatches_iff_resolvedYear (v : MasterVersion) :
    versionMatches v = true ↔ ∃ y, resolvedYearSpec v = some y ∧ MIN_YEAR ≤ y := by
  unfold versionMatches resolvedYearSpec
  by_cases hy : numTruthy v.year
  · simp [hy]
  · simp [hy]
    by_cases hr : strTruthy v.released
    · simp [hr]
      cases h : findYearMatch (strValOf v.released).data with
      | none => simp
      | some n => simp
    · simp [hr]

theorem versionMatches_year_ge (v : MasterVersion)
    (h : versionMatches v = true) : MIN_YEAR ≤ versionReleaseYear v := by
  unfold versionMatches at h
  unfold versionReleaseYear
  by_cases hy : numTruthy v.year
  · simp [hy] at h ⊢; exact h
  · simp [hy] at h ⊢
    by_cases hr : strTruthy v.released
    · simp [hr] at h ⊢
      cases hm : findYearMatch (strValOf v.released).data with
      | none => rw [hm] at h; simp at h
      | some n => rw [hm] at h; simp at h; simpa using h
    · simp [hr] at h

theorem mem_post2015Releases_year_ge (versions : List MasterVersion)
    (c : VersionCandidate) (hc : c ∈ post2015Releases versions) :
    MIN_YEAR ≤ c.year ∧ c.year ≠ 0 := by
  unfold post2015Releases at hc
  obtain ⟨v, hv, rfl⟩ := List.mem_map.mp hc
  have hm : versionMatches v = true := List.of_mem_filter hv
  have hy := versionMatches_year_ge v hm
  have hle : MIN_YEAR ≤ (toCandidate v).year := hy
  refine ⟨hle, ?_⟩
  intro h0
  rw [h0] at hle
  exact absurd hle (by decide)

/-- C1: a version candidate qualifies under the filter iff its year,
resolved in the order (a) truthy numeric `year` field, (b) else first
4-digit substring of a truthy `released` string, (c) else excluded, is
at least the threshold `MIN_YEAR`; the threshold itself is included and
`MIN_YEAR - 1` is excluded. -/
theorem classifier_qualifies_iff_resolved_year_ge_threshold :
    (∀ v : MasterVersion,
      versionMatches v = true ↔ ∃ y, resolvedYearSpec v = some y ∧ MIN_YEAR ≤ y) ∧
    versionMatches { id := 1, title := none, year := some MIN_YEAR, released := none } = true ∧
    versionMatches { id := 1, title := none, year := some (MIN_YEAR - 1), released := none } = false :=
  ⟨versionMatches_iff_resolvedYear, by decide, by decide⟩

theorem checkReleaseAux_matched_iff (env : DiscogsEnv) (releaseId : Int)
    (artist title : Option String) :
    ∀ fuel retryCount,
      (checkReleaseAux env releaseId artist title fuel retryCount).1.hasPost2015Release =
        decide (0 <
          (checkReleaseAux env releaseId artist title fuel retryCount).1.post2015Releases.length)
  | 0, _ => by simp [checkReleaseAux, unmatchedInfo]
  | fuel + 1, rc => by
    have ih := checkReleaseAux_matched_iff env releaseId artist title fuel (rc + 1)
    cases henv : env.getRelease rc with
    | error e =>
      by_cases h : e.statusCode = some 429 ∧ rc < maxRetries
      · simpa [checkReleaseAux, henv, h] using ih
      · simp [checkReleaseAux, henv, h, unmatchedInfo]
    | ok release =>
      by_cases hm : masterTruthy release.master_id = true
      · cases hver : env.getMasterVersions (release.master_id.getD 0) rc with
        | error e =>
          by_cases h : e.statusCode = some 429 ∧ rc < maxRetries
          · simpa [checkReleaseAux, henv, hm, hver, h] using ih
          · simp [checkReleaseAux, henv, hm, hver, h, unmatchedInfo]
        | ok versionsOpt => simp [checkReleaseAux, henv, hm, hver]
      · simp [checkReleaseAux, henv, hm, unmatchedInfo]

theorem checkReleaseAux_backoff_delay (env : DiscogsEnv) (releaseId : Int)
    (artist title : Option String) :
    ∀ fuel retryCount k d,
      LookupEvent.backoff k d ∈
        (checkReleaseAux env releaseId artist title fuel retryCount).2 →
      d = baseDelay * 2 ^ k ∧ k < maxRetries
  | 0, rc, k, d => by simp [checkReleaseAux]
  | fuel + 1, rc, k, d => by
    have ih := checkReleaseAux_backoff_delay env releaseId artist title fuel (rc + 1) k d
    cases henv : env.getRelease rc with
    | error e =>
      by_cases h : e.statusCode = some 429 ∧ rc < maxRetries
      · simp [checkReleaseAux, henv, h, List.mem_cons]
        rintro (⟨hk, hd⟩ | hmem)
        · subst hk; subst hd; exact ⟨rfl, h.2⟩
        · exact ih hmem
      · simp [checkReleaseAux, henv, h]
    | ok release =>
      by_cases hm : masterTruthy release.master_id = true
      · cases hver : env.getMasterVersions (release.master_id.getD 0) rc with
        | error e =>
          by_cases h : e.statusCode = some 429 ∧ rc < maxRetries
          · simp [checkReleaseAux, henv, hm, hver, h, List.mem_cons]
            rintro (⟨hk, hd⟩ | hmem)
            · subst hk; subst hd; exact ⟨rfl, h.2⟩
            · exact ih hmem
          · simp [checkReleaseAux, henv, hm, hver, h]
        | ok versionsOpt => simp [checkReleaseAux, henv, hm, hver]
      · simp [checkReleaseAux, henv, hm]

theorem checkReleaseAux_post_mem (env : DiscogsEnv) (releaseId : Int)
    (artist title : Option String) :
    ∀ fuel retryCount c,
      c ∈ (checkReleaseAux env releaseId artist title fuel retryCount).1.post2015Releases →
      MIN_YEAR ≤ c.year ∧ c.year ≠ 0
  | 0, rc, c => by simp [checkReleaseAux, unmatchedInfo]
  | fuel + 1, rc, c => by
    have ih := checkReleaseAux_post_mem env releaseId artist title fuel (rc + 1) c
    cases henv : env.getRelease rc with
    | error e =>
      by_cases h : e.statusCode = some 429 ∧ rc < maxRetries
      · intro hc
        exact ih (by simpa [checkReleaseAux, henv, h] using hc)
      · simp [checkReleaseAux, henv, h, unmatchedInfo]
    | ok release =>
      by_cases hm : masterTruthy release.master_id = true
      · cases hver : env.getMasterVersions (release.master_id.getD 0) rc with
        | error e =>
          by_cases h : e.statusCode = some 429 ∧ rc < maxRetries
          · intro hc
            exact ih (by simpa [checkReleaseAux, henv, hm, hver, h] using hc)
          · simp [checkReleaseAux, henv, hm, hver, h, unmatchedInfo]
        | ok versionsOpt =>
          intro hc
          exact mem_post2015Releases_year_ge (versionsOpt.getD []) c
            (by simpa [checkReleaseAux, henv, hm, hver] using hc)
      · simp [checkReleaseAux, henv, hm, unmatchedInfo]

theorem checkReleaseAux_all429 (env : DiscogsEnv) (releaseId : Int)
    (artist title : Option String)
    (h429 : ∀ k, ∃ e, env.getRelease k = .error e ∧ e.statusCode = some 429) :
    ∀ fuel retryCount, fuel = maxRetries + 1 - retryCount → retryCount ≤ maxRetries →
      (checkReleaseAux env releaseId artist title fuel retryCount).1 =
        unmatchedInfo releaseId artist title ∧
      ((checkReleaseAux env releaseId artist title fuel retryCount).2.filter
        isBackoffEvent).length = maxRetries - retryCount
  | 0, rc, hf, hrc => by
    have hm5 : maxRetries = 5 := rfl
    omega
  | fuel + 1, rc, hf, hrc => by
    obtain ⟨e, he, hs⟩ := h429 rc
    by_cases hlt : rc < maxRetries
    · have hm5 : maxRetries = 5 := rfl
      have ih := checkReleaseAux_all429 env releaseId artist title h429 fuel (rc + 1)
        (by omega) (by omega)
      have hcond : e.statusCode = some 429 ∧ rc < maxRetries := ⟨hs, hlt⟩
      simp [checkReleaseAux, he, hcond, isBackoffEvent, ih.1, ih.2]
      omega
    · have hcond : ¬(e.statusCode = some 429 ∧ rc < maxRetries) := fun hh => hlt hh.2
      have hm5 : maxRetries = 5 := rfl
      simp [checkReleaseAux, he, hcond, isBackoffEvent]
      omega

theorem checkReleaseAux_trace_head (env : DiscogsEnv) (releaseId : Int)
    (artist title : Option String) (fuel retryCount : Nat) :
    ((checkReleaseAux env releaseId artist title (fuel + 1) retryCount).2).head? =
      some (.fetchRelease retryCount) := by
  cases henv : env.getRelease retryCount with
  | error e =>
    by_cases h : e.statusCode = some 429 ∧ retryCount < maxRetries
    · simp [checkReleaseAux, henv, h]
    · simp [checkReleaseAux, henv, h]
  | ok release =>
    by_cases hm : masterTruthy release.master_id = true
    · cases hver : env.getMasterVersions (release.master_id.getD 0) retryCount with
      | error e =>
        by_cases h : e.statusCode = some 429 ∧ retryCount < maxRetries
        · simp [checkReleaseAux, henv, hm, hver, h]
        · simp [checkReleaseAux, henv, hm, hver, h]
      | ok versionsOpt => simp [checkReleaseAux, henv, hm, hver]
    · simp [checkReleaseAux, henv, hm]

/-- C2: a target rejected with status 429 on every attempt is retried
exactly `maxRetries` times and then yields a non-matching result; more
generally any error at either fetch whose retry condition fails (wrong
status or exhausted retries) is contained: the lookup returns the
non-matching result (with the containment log line) instead of
propagating. -/
theorem rate_limited_lookup_contained :
    (∀ env releaseId artist title,
      (∀ k, ∃ e, env.getRelease k = .error e ∧ e.statusCode = some 429) →
      (checkReleaseForPost2015Versions env releaseId artist title 0).1 =
        unmatchedInfo releaseId artist title ∧
      ((checkReleaseForPost2015Versions env releaseId artist title 0).2.filter
        isBackoffEvent).length = maxRetries) ∧
    (∀ env releaseId artist title retryCount e, retryCount ≤ maxRetries →
      env.getRelease retryCount = .error e →
      ¬(e.statusCode = some 429 ∧ retryCount < maxRetries) →
      checkReleaseForPost2015Versions env releaseId artist title retryCount =
        (unmatchedInfo releaseId artist title,
          [.fetchRelease retryCount, .errorLogged])) ∧
    (∀ env releaseId artist title retryCount release e, retryCount ≤ maxRetries →
      env.getRelease retryCount = .ok release →
      masterTruthy release.master_id = true →
      env.getMasterVersions (release.master_id.getD 0) retryCount = .error e →
      ¬(e.statusCode = some 429 ∧ retryCount < maxRetries) →
      checkReleaseForPost2015Versions env releaseId artist title retryCount =
        (unmatchedInfo releaseId artist title,
          [.fetchRelease retryCount, .fetchVersions (release.master_id.getD 0) retryCount,
            .errorLogged])) := by
  refine ⟨fun env releaseId artist title h429 => ?_,
    fun env releaseId artist title rc e hrc he hcond => ?_,
    fun env releaseId artist title rc release e hrc he hm hver hcond => ?_⟩
  · have h := checkReleaseAux_all429 env releaseId artist title h429
      (maxRetries + 1 - 0) 0 rfl (Nat.zero_le _)
    exact ⟨h.1, by simpa using h.2⟩
  · have hm5 : maxRetries = 5 := rfl
    obtain ⟨f, hfeq⟩ : ∃ f, maxRetries + 1 - rc = f + 1 := ⟨maxRetries - rc, by omega⟩
    unfold checkReleaseForPost2015Versions
    rw [hfeq]
    simp [checkReleaseAux, he, hcond]
  · have hm5 : maxRetries = 5 := rfl
    obtain ⟨f, hfeq⟩ : ∃ f, maxRetries + 1 - rc = f + 1 := ⟨maxRetries - rc, by omega⟩
    unfold checkReleaseForPost2015Versions
    rw [hfeq]
    simp [checkReleaseAux, he, hm, hver, hcond]

/-- Witness for C2 at concrete environments: all-429 lookups, a 500 on
the release fetch, and a non-status network error on the versions
fetch. -/
theorem rate_limited_lookup_contained_witness :
    ((checkReleaseForPost2015Versions env429 2 none none 0).1 = unmatchedInfo 2 none none ∧
      ((checkReleaseForPost2015Versions env429 2 none none 0).2.filter
        isBackoffEvent).length = maxRetries) ∧
    checkReleaseForPost2015Versions env500 2 none none 0 =
      (unmatchedInfo 2 none none, [.fetchRelease 0, .errorLogged]) ∧
    checkReleaseForPost2015Versions envVersionsDown 2 none none 0 =
      (unmatchedInfo 2 none none, [.fetchRelease 0, .fetchVersions 7 0, .errorLogged]) :=
  ⟨rate_limited_lookup_contained.1 env429 2 none none
      (fun _ => ⟨{ statusCode := some 429, message := "Too Many Requests" }, rfl, rfl⟩),
    rate_limited_lookup_contained.2.1 env500 2 none none 0
      { statusCode := some 500, message := "server error" } (by decide) rfl (by decide),
    rate_limited_lookup_contained.2.2 envVersionsDown 2 none none 0
      { master_id := some 7 } { statusCode := none, message := "network" }
      (by decide) rfl rfl rfl (by decide)⟩

/-- C3: every backoff sleep recorded at retry count `k` lasts
`baseDelay * 2 ^ k` milliseconds, `k` stays below `maxRetries`, and the
delay is strictly increasing in `k`. -/
theorem backoff_delay_exponential :
    (∀ env releaseId artist title retryCount k d,
      LookupEvent.backoff k d ∈
        (checkReleaseForPost2015Versions env releaseId artist title retryCount).2 →
      d = baseDelay * 2 ^ k ∧ k < maxRetries) ∧
    (∀ j k : Nat, j < k → baseDelay * 2 ^ j < baseDelay * 2 ^ k) := by
  constructor
  · intro env releaseId artist title retryCount k d hmem
    exact checkReleaseAux_backoff_delay env releaseId artist title
      (maxRetries + 1 - retryCount) retryCount k d hmem
  · intro j k hjk
    have h2 : (2 : Nat) ^ j < 2 ^ k := Nat.pow_lt_pow_right (by decide) hjk
    exact mul_lt_mul_of_pos_left h2 (by decide : (0 : Nat) < baseDelay)

/-- Witness for C3: the first backoff of the all-429 environment sleeps
60000 ms, and the delay for attempt 0 is below that for attempt 1. -/
theorem backoff_delay_exponential_witness :
    (60000 = baseDelay * 2 ^ 0 ∧ 0 < maxRetries) ∧
      baseDelay * 2 ^ 0 < baseDelay * 2 ^ 1 :=
  ⟨backoff_delay_exponential.1 env429 2 none none 0 0 60000 (by decide),
    backoff_delay_exponential.2 0 1 (by decide)⟩

/-- C4 counterexample: with the versions fetch rate-limited once (and
the release fetch always succeeding), the trace of the lookup re-issues
the release fetch after the backoff — the release fetch appears twice,
refuting the claimed `AwaitVersions → Backoff → AwaitVersions`
self-loop that would re-issue only the versions fetch. -/
theorem versions_backoff_no_self_loop :
    (checkReleaseForPost2015Versions envVersions429Once 3 none none 0).2 =
      [.fetchRelease 0, .fetchVersions 7 0, .backoff 0 60000,
        .fetchRelease 1, .fetchVersions 7 1] ∧
    ((checkReleaseForPost2015Versions envVersions429Once 3 none none 0).2.filter
      isFetchReleaseEvent).length = 2 := by decide

/-- C4 amended: after a 429 on the versions fetch with retries
remaining, the procedure sleeps the backoff delay and then restarts the
entire attempt at `retryCount + 1` — re-entering `AwaitRelease` (the
continuation trace starts with a release fetch) before the versions
fetch is re-issued. -/
theorem versions_backoff_restarts_full_attempt :
    ∀ env releaseId artist title retryCount release e, retryCount < maxRetries →
      env.getRelease retryCount = .ok release →
      masterTruthy release.master_id = true →
      env.getMasterVersions (release.master_id.getD 0) retryCount = .error e →
      e.statusCode = some 429 →
      checkReleaseForPost2015Versions env releaseId artist title retryCount =
        ((checkReleaseForPost2015Versions env releaseId artist title (retryCount + 1)).1,
          .fetchRelease retryCount :: .fetchVersions (release.master_id.getD 0) retryCount ::
            .backoff retryCount (baseDelay * 2 ^ retryCount) ::
            (checkReleaseForPost2015Versions env releaseId artist title (retryCount + 1)).2) ∧
      ((checkReleaseForPost2015Versions env releaseId artist title (retryCount + 1)).2).head? =
        some (.fetchRelease (retryCount + 1)) := by
  intro env releaseId artist title rc release e hlt he hm hver hs
  have hm5 : maxRetries = 5 := rfl
  have hfeq : maxRetries + 1 - rc = (maxRetries - rc - 1) + 1 + 1 := by omega
  have hfeq2 : maxRetries + 1 - (rc + 1) = (maxRetries - rc - 1) + 1 := by omega
  constructor
  · unfold checkReleaseForPost2015Versions
    rw [hfeq, hfeq2]
    simp [checkReleaseAux, he, hm, hver, hs, hlt]
  · unfold checkReleaseForPost2015Versions
    rw [hfeq2]
    exact checkReleaseAux_trace_head env releaseId artist title _ (rc + 1)

/-- Witness for the amended C4 at the concrete once-rate-limited
environment. -/
theorem versions_backoff_restarts_full_attempt_witness :
    (checkReleaseForPost2015Versions envVersions429Once 3 none none 0 =
      ((checkReleaseForPost2015Versions envVersions429Once 3 none none 1).1,
        .fetchRelease 0 :: .fetchVersions 7 0 :: .backoff 0 (baseDelay * 2 ^ 0) ::
          (checkReleaseForPost2015Versions envVersions429Once 3 none none 1).2) ∧
      ((checkReleaseForPost2015Versions envVersions429Once 3 none none 1).2).head? =
        some (.fetchRelease 1)) :=
  versions_backoff_restarts_full_attempt envVersions429Once 3 none none 0
    { master_id := some 7 } { statusCode := some 429, message := "Too Many Requests" }
    (by decide) rfl rfl rfl rfl

/-- C5: a fetched release with a falsy `master_id` immediately yields
the non-matching result; the only remote call in the trace is the one
release fetch and no error is logged (a normal outcome). -/
theorem no_master_short_circuits :
    ∀ env releaseId artist title retryCount release, retryCount ≤ maxRetries →
      env.getRelease retryCount = .ok release →
      masterTruthy release.master_id = false →
      checkReleaseForPost2015Versions env releaseId artist title retryCount =
        (unmatchedInfo releaseId artist title, [.fetchRelease retryCount]) := by
  intro env releaseId artist title rc release hrc he hm
  have hm5 : maxRetries = 5 := rfl
  obtain ⟨f, hfeq⟩ : ∃ f, maxRetries + 1 - rc = f + 1 := ⟨maxRetries - rc, by omega⟩
  unfold checkReleaseForPost2015Versions
  rw [hfeq]
  simp [checkReleaseAux, he, hm]

/-- Witness for C5 at a release without a master. -/
theorem no_master_short_circuits_witness :
    checkReleaseForPost2015Versions envNoMaster 4 none none 0 =
      (unmatchedInfo 4 none none, [.fetchRelease 0]) :=
  no_master_short_circuits envNoMaster 4 none none 0 { master_id := none }
    (by decide) rfl rfl

/-- C6: on every path of the lookup — classification, no-master, or
error containment — the matched flag of the produced result equals
"the matching-versions list is nonempty"; the embedding is pure, so a
result is never mutated after creation. -/
theorem matched_iff_matching_versions_nonempty :
    ∀ env releaseId artist title retryCount,
      (checkReleaseForPost2015Versions env releaseId artist title
        retryCount).1.hasPost2015Release =
      decide (0 < (checkReleaseForPost2015Versions env releaseId artist title
        retryCount).1.post2015Releases.length) := by
  intro env releaseId artist title retryCount
  exact checkReleaseAux_matched_iff env releaseId artist title
    (maxRetries + 1 - retryCount) retryCount

/-- C10: every candidate in the matching-versions list of any produced
result has year at least `MIN_YEAR`; the fabricated fallback year 0
never appears there. -/
theorem matching_versions_year_ge_threshold :
    ∀ env releaseId artist title retryCount c,
      c ∈ (checkReleaseForPost2015Versions env releaseId artist title
        retryCount).1.post2015Releases →
      MIN_YEAR ≤ c.year ∧ c.year ≠ 0 := by
  intro env releaseId artist title retryCount c hc
  exact checkReleaseAux_post_mem env releaseId artist title
    (maxRetries + 1 - retryCount) retryCount c hc

/-- Witness for C10 at an environment delivering one 2016 version. -/
theorem matching_versions_year_ge_threshold_witness :
    MIN_YEAR ≤ (2016 : Int) ∧ (2016 : Int) ≠ 0 :=
  matching_versions_year_ge_threshold envOneHit 5 none none 0
    { id := 9, title := "Unknown", year := 2016,
      url := "https://www.discogs.com/release/9" } (by decide)

/-- C7: the purge retains only timestamps inside the sliding window,
and the remaining budget is clamped into `[0, maxRequests]` for a
non-negative request budget — never negative. -/
theorem rate_window_invariants :
    (∀ now requestTimestamps, ∀ t ∈ RateLimiter.cleanup now requestTimestamps,
      now - t < windowMs) ∧
    (∀ maxRequests now requestTimestamps,
      0 ≤ RateLimiter.getRemaining maxRequests now requestTimestamps) ∧
    (∀ maxRequests now requestTimestamps, 0 ≤ maxRequests →
      RateLimiter.getRemaining maxRequests now requestTimestamps ≤ maxRequests) := by
  refine ⟨fun now ts t ht => ?_, fun maxReq now ts => le_max_left 0 _,
    fun maxReq now ts hmax => ?_⟩
  · simp [RateLimiter.cleanup, List.mem_filter] at ht
    exact ht.2
  · exact max_le hmax (sub_le_self _ (Int.ofNat_nonneg _))

/-- Witness for C7: at time 10 the window `[5, -70000]` retains only 5,
and both remaining-budget bounds hold for the authenticated budget 60. -/
theorem rate_window_invariants_witness :
    ((10 : Int) - 5 < windowMs) ∧
    0 ≤ RateLimiter.getRemaining 60 10 [5, -70000] ∧
    RateLimiter.getRemaining 60 10 [5, -70000] ≤ 60 :=
  ⟨rate_window_invariants.1 10 [5, -70000] 5 (by decide),
    rate_window_invariants.2.1 60 10 [5, -70000],
    rate_window_invariants.2.2 60 10 [5, -70000] (by decide)⟩

theorem collapseQuotes_doubleQuotes (s : List Char) :
    collapseQuotes (doubleQuotes s) = s := by
  induction s with
  | nil => rfl
  | cons c cs ih =>
    by_cases hc : c = '"'
    · subst hc
      simp [doubleQuotes, collapseQuotes, ih]
    · simp only [doubleQuotes, if_neg hc]
      cases h : doubleQuotes cs with
      | nil =>
        have hcs : cs = [] := by
          have h2 := ih
          rw [h] at h2
          simpa [collapseQuotes] using h2.symm
        simp [collapseQuotes, hcs]
      | cons d ds =>
        have hcol : collapseQuotes (c :: d :: ds) = c :: collapseQuotes (d :: ds) := by
          simp [collapseQuotes, hc]
        rw [hcol, ← h, ih]

/-- C8: a string containing a comma, quote, or newline escapes to a
quoted field with internal quotes doubled, and unescaping (strip the
outer quotes, collapse doubled quotes) restores the original string; a
string with none of those characters is returned unchanged. -/
theorem escapeCsvField_round_trip :
    ∀ s : List Char,
      ((s.contains ',' || s.contains '"' || s.contains '\n') = true →
        escapeCsvField s = '"' :: (doubleQuotes s ++ ['"']) ∧
        unescapeCsvField (escapeCsvField s) = s) ∧
      ((s.contains ',' || s.contains '"' || s.contains '\n') = false →
        escapeCsvField s = s) := by
  intro s
  constructor
  · intro hsp
    have he : escapeCsvField s = '"' :: (doubleQuotes s ++ ['"']) := by
      unfold escapeCsvField
      rw [if_pos hsp]
    refine ⟨he, ?_⟩
    rw [he]
    have hne : doubleQuotes s ++ ['"'] ≠ [] := by simp
    have hlast : (doubleQuotes s ++ ['"']).getLast? = some '"' := by
      simp [List.getLast?_concat]
    show (if ('"' : Char) = '"' ∧ doubleQuotes s ++ ['"'] ≠ [] ∧
        (doubleQuotes s ++ ['"']).getLast? = some '"' then
        collapseQuotes (doubleQuotes s ++ ['"']).dropLast
      else '"' :: (doubleQuotes s ++ ['"'])) = s
    rw [if_pos ⟨rfl, hne, hlast⟩]
    rw [List.dropLast_concat]
    exact collapseQuotes_doubleQuotes s
  · intro hsp
    unfold escapeCsvField
    rw [if_neg (by rw [hsp]; exact Bool.false_ne_true)]

/-- Witness for C8 at a value holding a comma, quotes and a newline,
and at a plain value. -/
theorem escapeCsvField_round_trip_witness :
    unescapeCsvField (escapeCsvField ("he said \"hi\",\nbye".data)) =
      "he said \"hi\",\nbye".data ∧
    escapeCsvField ("plain text".data) = "plain text".data :=
  ⟨((escapeCsvField_round_trip ("he said \"hi\",\nbye".data)).1 (by decide)).2,
    (escapeCsvField_round_trip ("plain text".data)).2 (by decide)⟩

theorem digit_not_jsWhitespace (c : Char) (h : c.isDigit = true) :
    jsWhitespace c = false := by
  cases hw : jsWhitespace c
  · rfl
  · exfalso
    unfold jsWhitespace at hw
    simp only [Bool.or_eq_true, decide_eq_true_eq] at hw
    rcases hw with ((((rfl | rfl) | rfl) | rfl) | rfl) | rfl <;> exact absurd h (by decide)

theorem takeWhile_isDigit_eq_self (l : List Char) (hall : ∀ c ∈ l, c.isDigit = true) :
    l.takeWhile Char.isDigit = l := by
  induction l with
  | nil => rfl
  | cons c cs ih =>
    rw [List.takeWhile_cons, hall c (List.mem_cons_self c cs)]
    simp [ih fun d hd => hall d (List.mem_cons_of_mem c hd)]

theorem parseIntJS_all_digits (l : List Char) (hne : l ≠ [])
    (hall : ∀ c ∈ l, c.isDigit = true) :
    parseIntJS l = some (digitsValue l) := by
  cases l with
  | nil => exact absurd rfl hne
  | cons c cs =>
    have hc : c.isDigit = true := hall c (List.mem_cons_self c cs)
    unfold parseIntJS
    rw [List.dropWhile_cons, digit_not_jsWhitespace c hc]
    simp only [Bool.false_eq_true, if_false]
    have htake : (c :: cs).takeWhile Char.isDigit = c :: cs :=
      takeWhile_isDigit_eq_self (c :: cs) hall
    split
    · rename_i rest heq
      rw [List.cons.injEq] at heq
      exact absurd hc (by rw [heq.1]; decide)
    · rename_i rest heq
      rw [List.cons.injEq] at heq
      exact absurd hc (by rw [heq.1]; decide)
    · rw [htake]
      simp

/-- C9 counterexample: the release_id value "12abc" is not a positive
integer (it is malformed), yet extraction keeps the row and produces a
target with id 12 — the claim that malformed values produce no target
fails. -/
theorem malformed_release_id_not_skipped :
    isPositiveIntegerString "12abc" = false ∧
    extractReleaseIds [rowMalformed] = [{ id := 12, artist := "A", title := "T" }] := by
  decide

/-- C9 amended: extraction keeps exactly the rows whose release_id
parses under JavaScript `parseInt` semantics (optional whitespace and
sign, then leading digits, trailing characters ignored) to a value
greater than 0 — so every canonical positive-integer string is kept,
but a string is not skipped merely for trailing garbage; kept rows
default an absent or empty Artist or Title to "Unknown". -/
theorem extractReleaseIds_parseInt_characterization :
    (∀ rows : List CsvRow, extractReleaseIds rows = rows.filterMap extractRow) ∧
    (∀ s : String, isPositiveIntegerString s = true →
      ∃ n : Int, parseIntJS s.data = some n ∧ 0 < n) ∧
    orUnknown none = "Unknown" ∧ orUnknown (some "") = "Unknown" := by
  refine ⟨fun rows => ?_, fun s hs => ?_, by decide, by decide⟩
  · induction rows with
    | nil => rfl
    | cons row rest ih =>
      cases h : rowReleaseId row with
      | none => simp [extractReleaseIds, extractRow, List.filterMap_cons, h, ih]
      | some n =>
        by_cases hn : 0 < n <;>
          simp [extractReleaseIds, extractRow, List.filterMap_cons, h, hn, ih]
  · simp only [isPositiveIntegerString, Bool.and_eq_true, Bool.not_eq_true',
      decide_eq_true_eq, List.all_eq_true] at hs
    obtain ⟨⟨hne, hall⟩, hpos⟩ := hs
    refine ⟨(digitsValue s.data : Int), ?_, by exact_mod_cast hpos⟩
    exact parseIntJS_all_digits s.data (by simpa [List.isEmpty_iff] using hne) hall

/-- Witness for the amended C9: the malformed row follows the
`filterMap` characterization, and the canonical string "42" parses to
the positive value 42. -/
theorem extractReleaseIds_parseInt_characterization_witness :
    extractReleaseIds [rowMalformed] = [rowMalformed].filterMap extractRow ∧
    ∃ n : Int, parseIntJS ("42".data) = some n ∧ 0 < n :=
  ⟨extractReleaseIds_parseInt_characterization.1 [rowMalformed],
    extractReleaseIds_parseInt_characterization.2.1 "42" (by decide)⟩

end Wantlist
